import Mathlib

/-!
Verification of the mapbox-globe-viewer data pipeline.

This file gives a shallow embedding of the repository's pure application
logic: the visitor filter predicates (`src/utils/visitorFilters.js`), the
unique-value extraction used to populate filter dropdowns, the clustering
hook's argument construction (`src/hooks/useClustering.js`), the viewport
bounds derivation and the selection / cluster-click handlers of
`src/App.jsx`, the configuration constants of `src/constants.js`, and the
conversion-score colour mapping (`src/utils/conversionScore.js`).

JavaScript modelling conventions:
* an `undefined` (absent) field is `Option.none`;
* JS numbers are modelled as `ℚ` where they are arbitrary coordinates or
  scores, and as `ℤ` where the code only ever sees integers (zoom levels,
  which reach the hook through `Math.floor`);
* a JS function that can throw is given an `Except` result; a caller that
  wraps it in `try`/`catch` maps the error case explicitly;
* falsy-coalescing `x || d` on a string is `if x = "" then d else x`, and on
  an integer it is `if x = 0 then d else x` (with `none` for
  `undefined`/`null`).
-/

namespace GlobeViewer

/-- Model of `CONVERSION_SCORE` from `src/constants.js`. -/
structure ConversionScoreConfig where
  HIGH_THRESHOLD : ℚ
  MEDIUM_THRESHOLD : ℚ
  HIGH_COLOR : String
  MEDIUM_COLOR : String
  LOW_COLOR : String
  OPACITY : String
deriving DecidableEq, Repr

/-- `CONVERSION_SCORE` constant object from `src/constants.js`. -/
def CONVERSION_SCORE : ConversionScoreConfig :=
  { HIGH_THRESHOLD := 80
    MEDIUM_THRESHOLD := 50
    HIGH_COLOR := "#34C759"
    MEDIUM_COLOR := "#FFD60A"
    LOW_COLOR := "#FF453A"
    OPACITY := "1F" }

/-- Model of `CLUSTER_CONFIG` from `src/constants.js`. -/
structure ClusterConfigT where
  RADIUS : ℤ
  MAX_ZOOM : ℤ
  MIN_ZOOM : ℤ
deriving DecidableEq, Repr

/-- `CLUSTER_CONFIG` constant object from `src/constants.js`. -/
def CLUSTER_CONFIG : ClusterConfigT :=
  { RADIUS := 60, MAX_ZOOM := 14, MIN_ZOOM := 2 }

/-- `CLUSTER_MAX_EXPANSION_ZOOM` from `src/constants.js`. -/
def CLUSTER_MAX_EXPANSION_ZOOM : ℤ := 18

/-- `MARKER_SELECTED_ZOOM` from `src/constants.js`. -/
def MARKER_SELECTED_ZOOM : ℤ := 3

/-- The `device` sub-object of a visitor record (`visitor.device`), whose
`type` property may itself be absent. -/
structure DeviceInfo where
  type : Option String
deriving DecidableEq, Repr

/-- A visitor record as consumed by the filter utilities and App handlers.
Optional display / classification attributes are `Option`-valued: `none`
models an absent (`undefined`) JS property. -/
structure Visitor where
  visitorId : String
  firstName : Option String := none
  lastName : Option String := none
  email : Option String := none
  city : Option String := none
  country : Option String := none
  countryCode : Option String := none
  isCustomer : Option Bool := none
  device : Option DeviceInfo := none
  longitude : ℚ := 0
  latitude : ℚ := 0
  conversionScore : Option ℚ := none
deriving DecidableEq, Repr

/-- JS `a.includes(b)` substring test on strings: `q` occurs contiguously
in `s` iff it is a prefix of some suffix of `s`. -/
def jsIncludes (s q : String) : Bool :=
  s.toList.tails.any (fun t => q.toList.isPrefixOf t)

/-- Optional-chain `field?.toLowerCase().includes(query)`: an absent field is
`undefined`, which is falsy in the `||` chain, i.e. `false` here. -/
def optIncludesLower (field : Option String) (query : String) : Bool :=
  match field with
  | none => false
  | some s => jsIncludes s.toLower query

/-- Optional-chain `field?.toLowerCase() === other`: strict equality of
`undefined` with a string is `false`. -/
def optLowerEq (field : Option String) (other : String) : Bool :=
  match field with
  | none => false
  | some s => s.toLower == other

/-- `matchesSearchQuery` from `src/utils/visitorFilters.js`: empty query
matches everything, otherwise the lowercased query must be a substring of
one of firstName, lastName, email, city, country. -/
def matchesSearchQuery (visitor : Visitor) (searchQuery : String) : Bool :=
  if searchQuery = "" then true
  else
    let query := searchQuery.toLower
    optIncludesLower visitor.firstName query ||
    optIncludesLower visitor.lastName query ||
    optIncludesLower visitor.email query ||
    optIncludesLower visitor.city query ||
    optIncludesLower visitor.country query

/-- `matchesCountryFilter` from `src/utils/visitorFilters.js`. -/
def matchesCountryFilter (visitor : Visitor) (countryFilter : String) : Bool :=
  if countryFilter = "" then true
  else optLowerEq visitor.country countryFilter.toLower

/-- `matchesDeviceFilter` from `src/utils/visitorFilters.js`:
`visitor.device?.type?.toLowerCase() === deviceFilter.toLowerCase()`. -/
def matchesDeviceFilter (visitor : Visitor) (deviceFilter : String) : Bool :=
  if deviceFilter = "" then true
  else optLowerEq (visitor.device.bind DeviceInfo.type) deviceFilter.toLower

/-- `matchesCustomerFilter` from `src/utils/visitorFilters.js`: the
`customer` branch requires `isCustomer === true`, the `visitor` branch
requires `isCustomer === false` (strict equality: an absent field is
`undefined`, which is not `=== false`), everything else matches. -/
def matchesCustomerFilter (visitor : Visitor) (customerFilter : String) : Bool :=
  if customerFilter = "" then true
  else if customerFilter = "customer" then visitor.isCustomer == some true
  else if customerFilter = "visitor" then visitor.isCustomer == some false
  else true

/-- `matchesCountryCodeFilter` from `src/utils/visitorFilters.js`. -/
def matchesCountryCodeFilter (visitor : Visitor) (countryCodeFilter : String) : Bool :=
  if countryCodeFilter = "" then true
  else optLowerEq visitor.countryCode countryCodeFilter.toLower

/-- The `filters` state object of `src/App.jsx` (country, device, customer,
countryCode), all plain strings with `""` meaning inactive. -/
structure Filters where
  country : String := ""
  device : String := ""
  customer : String := ""
  countryCode : String := ""
deriving DecidableEq, Repr

/-- The conjunction tested by the callback inside `filterVisitors`. -/
def visitorPasses (visitor : Visitor) (searchQuery : String) (filters : Filters) : Bool :=
  matchesSearchQuery visitor searchQuery &&
  matchesCountryFilter visitor filters.country &&
  matchesDeviceFilter visitor filters.device &&
  matchesCustomerFilter visitor filters.customer &&
  matchesCountryCodeFilter visitor filters.countryCode

/-- `filterVisitors` from `src/utils/visitorFilters.js`. -/
def filterVisitors (visitors : List Visitor) (searchQuery : String)
    (filters : Filters) : List Visitor :=
  visitors.filter (fun visitor => visitorPasses visitor searchQuery filters)

/-- The `.filter(Boolean)` step of `getUniqueValues`: drops `undefined`
results of the accessor and empty strings (both falsy). -/
def jsBooleanFilter (values : List (Option String)) : List String :=
  values.filterMap (fun v =>
    match v with
    | none => none
    | some s => if s = "" then none else some s)

/-- The `.filter((value, index, self) => self.indexOf(value) === index)`
step of `getUniqueValues`: keep each value's first occurrence only.
`seen` accumulates the values already emitted. -/
def dedupKeepFirst (seen : List String) : List String → List String
  | [] => []
  | v :: rest =>
    if v ∈ seen then dedupKeepFirst seen rest
    else v :: dedupKeepFirst (v :: seen) rest

/-- `getUniqueValues` from `src/utils/visitorFilters.js`, with the
string-or-function field accessor already normalised to a function (a string
field name `f` stands for `fun visitor => visitor.f`).  JS `values.sort()`
is a stable lexicographic-ascending sort; since its input here is
duplicate-free, any correct sort produces the same list, modelled with
insertion sort over `≤` on strings. -/
def getUniqueValues (visitors : List Visitor) (getValue : Visitor → Option String) :
    List String :=
  List.insertionSort (fun a b => a ≤ b)
    (dedupKeepFirst [] (jsBooleanFilter (visitors.map getValue)))

/-- A GeoJSON point feature as built by `useClustering` in
`src/hooks/useClustering.js` (`properties` and `geometry` flattened). -/
structure PointFeature where
  cluster : Bool
  visitorId : String
  visitor : Visitor
  coordinates : ℚ × ℚ
deriving DecidableEq, Repr

/-- The per-visitor point construction inside `useClustering`. -/
def visitorToPoint (visitor : Visitor) : PointFeature :=
  { cluster := false
    visitorId := visitor.visitorId
    visitor := visitor
    coordinates := (visitor.longitude, visitor.latitude) }

/-- Map bounds as an array `[west, south, east, north]`. -/
structure JsBounds where
  west : ℚ
  south : ℚ
  east : ℚ
  north : ℚ
deriving DecidableEq, Repr

/-- The argument object `useClustering` passes to `useSupercluster`:
`bounds: bounds || undefined`, `zoom: zoom || CLUSTER_CONFIG.MIN_ZOOM`,
options from `CLUSTER_CONFIG`. -/
structure SuperclusterArgs where
  points : List PointFeature
  bounds : Option JsBounds
  zoom : ℤ
  radius : ℤ
  maxZoom : ℤ
deriving DecidableEq, Repr

/-- The `zoom || CLUSTER_CONFIG.MIN_ZOOM` expression of `useClustering`:
`none` models an absent (`undefined`/`null`) zoom and `0` is the only falsy
integer, so exactly those two cases fall back to `MIN_ZOOM`; every other
value — including positive values below `MIN_ZOOM` — passes through. -/
def jsZoomOrMin (zoom : Option ℤ) : ℤ :=
  match zoom with
  | none => CLUSTER_CONFIG.MIN_ZOOM
  | some z => if z = 0 then CLUSTER_CONFIG.MIN_ZOOM else z

/-- `useClustering` from `src/hooks/useClustering.js`, restricted to the
argument object it hands to the external `useSupercluster` collaborator
(the collaborator's own output is out of scope).  `bounds || undefined`
maps a `null` bounds to `undefined`: both are `none`. -/
def useClusteringArgs (visitors : List Visitor) (bounds : Option JsBounds)
    (zoom : Option ℤ) : SuperclusterArgs :=
  { points := visitors.map visitorToPoint
    bounds := bounds
    zoom := jsZoomOrMin zoom
    radius := CLUSTER_CONFIG.RADIUS
    maxZoom := CLUSTER_CONFIG.MAX_ZOOM }

/-- A longitude/latitude pair as returned by the map collaborator's
`getNorthEast()`/`getSouthWest()`. -/
structure LngLat where
  lng : ℚ
  lat : ℚ
deriving DecidableEq, Repr

/-- The corner pair reported by `map.getBounds()`. -/
structure MapBoundsCorners where
  sw : LngLat
  ne : LngLat
deriving DecidableEq, Repr

instance : DecidableEq (Except Unit MapBoundsCorners) := fun x y =>
  match x, y with
  | Except.error a, Except.error b =>
    if h : a = b then isTrue (by rw [h]) else isFalse (fun hh => h (Except.error.inj hh))
  | Except.ok a, Except.ok b =>
    if h : a = b then isTrue (by rw [h]) else isFalse (fun hh => h (Except.ok.inj hh))
  | Except.error _, Except.ok _ => isFalse (fun hh => Except.noConfusion hh)
  | Except.ok _, Except.error _ => isFalse (fun hh => Except.noConfusion hh)

/-- The map collaborator as seen by the `bounds` memo of `src/App.jsx`:
`getBoundsResult` is `Except.error ()` when `map.getBounds` is missing or
the query throws (the memo's `!map.getBounds` guard and its
`try`/`catch`), and `Except.ok` with the reported corners otherwise. -/
structure MapboxMap where
  getBoundsResult : Except Unit MapBoundsCorners
deriving DecidableEq, Repr

/-- The `bounds` memo of `src/App.jsx` (lines 58–70): `none` for a missing
map ref, `none` when the bounds query fails, otherwise the passthrough
array `[sw.lng, sw.lat, ne.lng, ne.lat]`.  Total: every failure path
returns the `none` sentinel instead of propagating an exception. -/
def deriveBounds (mapRef : Option MapboxMap) : Option JsBounds :=
  match mapRef with
  | none => none
  | some m =>
    match m.getBoundsResult with
    | Except.error _ => none
    | Except.ok corners =>
      some { west := corners.sw.lng, south := corners.sw.lat
             east := corners.ne.lng, north := corners.ne.lat }

/-- The object stored by `setSelectedMarker({ id: visitor.visitorId,
...visitor })` in `handleMarkerClick`. -/
structure SelectedMarker where
  id : String
  visitor : Visitor
deriving DecidableEq, Repr

/-- The UI events of `src/App.jsx` that touch the `selectedMarker` state. -/
inductive UIEvent where
  | markerClick (visitor : Visitor)
  | clusterClick
  | mapBackgroundClick
  | popupClose
  | viewReset
deriving DecidableEq, Repr

/-- Transition of the single `selectedMarker` React state under the App's
handlers: `handleMarkerClick` replaces it, `closePopup` and `resetView` set
it to `null`, `handleMapClick` clears it only when something is selected,
and `handleClusterClick` leaves it untouched. -/
def selectionStep (sel : Option SelectedMarker) : UIEvent → Option SelectedMarker
  | UIEvent.markerClick v => some { id := v.visitorId, visitor := v }
  | UIEvent.clusterClick => sel
  | UIEvent.mapBackgroundClick => if sel.isSome then none else sel
  | UIEvent.popupClose => none
  | UIEvent.viewReset => none

/-- Number of simultaneously selected records in a `selectedMarker` state. -/
def selectionCount (sel : Option SelectedMarker) : ℕ :=
  match sel with
  | none => 0
  | some _ => 1

/-- The expansion-zoom computation of `handleClusterClick` in
`src/App.jsx`: `Math.min(supercluster.getClusterExpansionZoom(id) + 1,
CLUSTER_MAX_EXPANSION_ZOOM)`, as a function of the collaborator-reported
expansion zoom. -/
def handleClusterClickZoom (reportedExpansionZoom : ℤ) : ℤ :=
  min (reportedExpansionZoom + 1) CLUSTER_MAX_EXPANSION_ZOOM

/-- `getConversionScoreColor` from `src/utils/conversionScore.js`. -/
def getConversionScoreColor (score : ℚ) : String :=
  if score ≥ CONVERSION_SCORE.HIGH_THRESHOLD then CONVERSION_SCORE.HIGH_COLOR
  else if score ≥ CONVERSION_SCORE.MEDIUM_THRESHOLD then CONVERSION_SCORE.MEDIUM_COLOR
  else CONVERSION_SCORE.LOW_COLOR

/-- `getConversionScoreBackgroundColor` from `src/utils/conversionScore.js`. -/
def getConversionScoreBackgroundColor (score : ℚ) : String :=
  getConversionScoreColor score ++ CONVERSION_SCORE.OPACITY

/-- The relation "criteria `(searchQuery', filters')` is `(searchQuery,
filters)` with exactly one non-empty field cleared", the relaxation step of
the monotonicity claim.  Clearing the customer field may set it to `""` or
to `"any"`; a field only counts as clearable when it is active. -/
def clearsOneField (searchQuery : String) (filters : Filters)
    (searchQuery' : String) (filters' : Filters) : Prop :=
  (searchQuery ≠ "" ∧ searchQuery' = "" ∧ filters' = filters) ∨
  (filters.country ≠ "" ∧ searchQuery' = searchQuery ∧
    filters' = { filters with country := "" }) ∨
  (filters.device ≠ "" ∧ searchQuery' = searchQuery ∧
    filters' = { filters with device := "" }) ∨
  (filters.customer ≠ "" ∧ filters.customer ≠ "any" ∧ searchQuery' = searchQuery ∧
    (filters' = { filters with customer := "" } ∨
     filters' = { filters with customer := "any" })) ∨
  (filters.countryCode ≠ "" ∧ searchQuery' = searchQuery ∧
    filters' = { filters with countryCode := "" })

/-- Concrete visitor with no `isCustomer` field, for counterexamples. -/
def anonVisitor : Visitor :=
  { visitorId := "v-anon" }

/-- Concrete visitor used in witnesses: a US customer on desktop. -/
def usVisitor : Visitor :=
  { visitorId := "v-us"
    firstName := some "Ada"
    country := some "US"
    countryCode := some "US"
    isCustomer := some true
    device := some { type := some "desktop" } }

/-- Concrete visitor used in witnesses: a French non-customer. -/
def frVisitor : Visitor :=
  { visitorId := "v-fr"
    firstName := some "Bob"
    country := some "FR"
    countryCode := some "FR"
    isCustomer := some false }

/-- A map collaborator reporting inverted corners (southwest strictly
north-east of northeast), for the bounds counterexample. -/
def invertedCornersMap : MapboxMap :=
  { getBoundsResult := Except.ok
      { sw := { lng := 10, lat := 20 }, ne := { lng := 0, lat := 0 } } }

/-- A map collaborator whose bounds query throws. -/
def throwingMap : MapboxMap :=
  { getBoundsResult := Except.error () }

/-- Well-ordered corner report, for the bounds witness. -/
def orderedCorners : MapBoundsCorners :=
  { sw := { lng := -10, lat := -20 }, ne := { lng := 30, lat := 40 } }

/-- A map collaborator reporting the well-ordered corners. -/
def orderedCornersMap : MapboxMap :=
  { getBoundsResult := Except.ok orderedCorners }

/-- Filter state with only the customer filter active, for witnesses. -/
def customerOnlyFilters : Filters :=
  { customer := "customer" }

/-! ## Theorems -/

theorem selectionCount_le_one (sel : Option SelectedMarker) : selectionCount sel ≤ 1 := by
  cases sel <;> simp [selectionCount]

/-- C1 counterexample: the record `anonVisitor` has no `isCustomer` field,
yet the `visitor` customer-type sub-check rejects it — strict equality with
`false` fails on an absent field, so "absent passes" is false. -/
theorem matchesCustomerFilter_visitor_absent_fails :
    anonVisitor.isCustomer = none ∧
    matchesCustomerFilter anonVisitor "visitor" = false := by
  decide

/-- C1 (amended): the `visitor` customer-type sub-check passes iff the
record's `isCustomer` field is present and equal to `false`; a record with
no `isCustomer` field does not pass. -/
theorem matchesCustomerFilter_visitor_iff (v : Visitor) :
    matchesCustomerFilter v "visitor" = true ↔ v.isCustomer = some false := by
  unfold matchesCustomerFilter
  rw [if_neg (by decide), if_neg (by decide), if_pos rfl]
  exact beq_iff_eq

/-- C2 counterexample: a supplied zoom of `1`, strictly below
`CLUSTER_CONFIG.MIN_ZOOM = 2`, is passed to the clustering collaborator
unchanged — `zoom || MIN_ZOOM` only replaces falsy values, it does not
clamp. -/
theorem useClusteringArgs_zoom_one_not_clamped :
    (useClusteringArgs [] none (some 1)).zoom = 1 ∧
    (useClusteringArgs [] none (some 1)).zoom < CLUSTER_CONFIG.MIN_ZOOM := by
  decide

/-- C2 (amended): the zoom passed to the clustering collaborator is
`MIN_ZOOM` exactly when the caller supplies an absent zoom or a zoom of
`0` (the falsy values); every other supplied zoom — including positive
values below `MIN_ZOOM` — is forwarded unchanged. -/
theorem useClusteringArgs_zoom_falsy_default (visitors : List Visitor)
    (bounds : Option JsBounds) (zoom : Option ℤ) :
    (useClusteringArgs visitors bounds zoom).zoom = jsZoomOrMin zoom ∧
    (useClusteringArgs visitors bounds none).zoom = CLUSTER_CONFIG.MIN_ZOOM ∧
    (useClusteringArgs visitors bounds (some 0)).zoom = CLUSTER_CONFIG.MIN_ZOOM ∧
    (∀ k : ℤ, k ≠ 0 → (useClusteringArgs visitors bounds (some k)).zoom = k) := by
  refine ⟨rfl, rfl, rfl, fun k hk => ?_⟩
  simp [useClusteringArgs, jsZoomOrMin, hk]

theorem useClusteringArgs_zoom_falsy_default_witness :
    (3 : ℤ) ≠ 0 ∧ (useClusteringArgs [] none (some 3)).zoom = 3 :=
  ⟨by decide, (useClusteringArgs_zoom_falsy_default [] none (some 3)).2.2.2 3 (by decide)⟩

/-- C8: the cluster-expansion target zoom is the collaborator-reported
expansion zoom plus exactly one, clamped to
`CLUSTER_MAX_EXPANSION_ZOOM = 18`; hence it never exceeds the maximum and
strictly exceeds the reported zoom whenever that is below the maximum. -/
theorem handleClusterClickZoom_spec (z : ℤ) :
    handleClusterClickZoom z = min (z + 1) CLUSTER_MAX_EXPANSION_ZOOM ∧
    handleClusterClickZoom z ≤ CLUSTER_MAX_EXPANSION_ZOOM ∧
    (z < CLUSTER_MAX_EXPANSION_ZOOM → z < handleClusterClickZoom z) := by
  refine ⟨rfl, min_le_right _ _, fun h => ?_⟩
  exact lt_min (by omega) h

theorem handleClusterClickZoom_spec_witness :
    ((5 : ℤ) < CLUSTER_MAX_EXPANSION_ZOOM) ∧ (5 : ℤ) < handleClusterClickZoom 5 :=
  ⟨by decide, (handleClusterClickZoom_spec 5).2.2 (by decide)⟩

/-- C10: the score-to-colour mapping partitions the scores exactly at the
two thresholds — high iff `score ≥ 80`, medium iff `50 ≤ score < 80`, low
iff `score < 50` — and the background variant always appends the fixed
opacity suffix to that same colour. -/
theorem getConversionScoreColor_partition (s : ℚ) :
    (getConversionScoreColor s = CONVERSION_SCORE.HIGH_COLOR ↔
      CONVERSION_SCORE.HIGH_THRESHOLD ≤ s) ∧
    (getConversionScoreColor s = CONVERSION_SCORE.MEDIUM_COLOR ↔
      CONVERSION_SCORE.MEDIUM_THRESHOLD ≤ s ∧ s < CONVERSION_SCORE.HIGH_THRESHOLD) ∧
    (getConversionScoreColor s = CONVERSION_SCORE.LOW_COLOR ↔
      s < CONVERSION_SCORE.MEDIUM_THRESHOLD) ∧
    getConversionScoreBackgroundColor s =
      getConversionScoreColor s ++ CONVERSION_SCORE.OPACITY := by
  have hMH : CONVERSION_SCORE.MEDIUM_THRESHOLD ≤ CONVERSION_SCORE.HIGH_THRESHOLD := by
    norm_num [CONVERSION_SCORE]
  refine ⟨?_, ?_, ?_, rfl⟩ <;> unfold getConversionScoreColor <;> split_ifs with h1 h2
  · exact iff_of_true rfl h1
  · exact iff_of_false (by decide) h1
  · exact iff_of_false (by decide) h1
  · exact iff_of_false (by decide) (fun hx => absurd hx.2 (not_lt.mpr h1))
  · exact iff_of_true rfl ⟨h2, lt_of_not_ge h1⟩
  · exact iff_of_false (by decide) (fun hx => h2 hx.1)
  · exact iff_of_false (by decide) (not_lt.mpr (le_trans hMH h1))
  · exact iff_of_false (by decide) (not_lt.mpr h2)
  · exact iff_of_true rfl (lt_of_not_ge h2)

/-- C3 counterexample: the bounds memo performs no validation — a
collaborator state reporting inverted corners (southwest at (10, 20),
northeast at (0, 0)) yields a rectangle with `west = 10 > east = 0`, so
the deriver can produce an invalid rectangle from reported corners. -/
theorem deriveBounds_inverted_corners :
    deriveBounds (some invertedCornersMap) =
      some { west := 10, south := 20, east := 0, north := 0 } ∧
    ¬ ((10 : ℚ) ≤ 0) := by
  exact ⟨rfl, by norm_num⟩

/-- C3 (amended): whenever the collaborator's reported corners are
componentwise ordered (`sw.lng ≤ ne.lng` and `sw.lat ≤ ne.lat`), the
derived rectangle satisfies `west ≤ east` and `south ≤ north`; the deriver
passes the corners through unvalidated, so the invariant holds exactly
when the collaborator's report is ordered. -/
theorem deriveBounds_valid_of_ordered_corners (m : MapboxMap) (corners : MapBoundsCorners)
    (hok : m.getBoundsResult = Except.ok corners)
    (hlng : corners.sw.lng ≤ corners.ne.lng)
    (hlat : corners.sw.lat ≤ corners.ne.lat) :
    ∃ b : JsBounds, deriveBounds (some m) = some b ∧ b.west ≤ b.east ∧ b.south ≤ b.north := by
  refine ⟨{ west := corners.sw.lng, south := corners.sw.lat
            east := corners.ne.lng, north := corners.ne.lat }, ?_, hlng, hlat⟩
  obtain ⟨res⟩ := m
  cases res with
  | error e => exact absurd hok (by simp)
  | ok c =>
    obtain rfl : c = corners := Except.ok.inj hok
    rfl

theorem deriveBounds_valid_of_ordered_corners_witness :
    (orderedCornersMap.getBoundsResult = Except.ok orderedCorners ∧
      orderedCorners.sw.lng ≤ orderedCorners.ne.lng ∧
      orderedCorners.sw.lat ≤ orderedCorners.ne.lat) ∧
    ∃ b : JsBounds, deriveBounds (some orderedCornersMap) = some b ∧
      b.west ≤ b.east ∧ b.south ≤ b.north :=
  ⟨⟨rfl, by norm_num [orderedCorners], by norm_num [orderedCorners]⟩,
    deriveBounds_valid_of_ordered_corners orderedCornersMap orderedCorners rfl
      (by norm_num [orderedCorners]) (by norm_num [orderedCorners])⟩

/-- C9: when the camera is not yet available (no map ref) or the bounds
query fails (`getBounds` missing or throwing), the bounds memo returns the
`none` sentinel — it is a total function, never an exception — and the
clustering arguments built from that sentinel carry `bounds = none`,
i.e. clustering runs unconstrained. -/
theorem unavailable_bounds_run_unconstrained (visitors : List Visitor)
    (zoom : Option ℤ) (m : MapboxMap)
    (hfail : m.getBoundsResult = Except.error ()) :
    deriveBounds none = none ∧
    deriveBounds (some m) = none ∧
    (useClusteringArgs visitors (deriveBounds none) zoom).bounds = none ∧
    (useClusteringArgs visitors (deriveBounds (some m)) zoom).bounds = none := by
  have hm : deriveBounds (some m) = none := by
    obtain ⟨res⟩ := m
    cases res with
    | error e => rfl
    | ok c => exact absurd hfail (by simp)
  refine ⟨rfl, hm, rfl, ?_⟩
  rw [hm]
  rfl

theorem unavailable_bounds_run_unconstrained_witness :
    (throwingMap.getBoundsResult = Except.error ()) ∧
    (deriveBounds none = none ∧
      deriveBounds (some throwingMap) = none ∧
      (useClusteringArgs [] (deriveBounds none) none).bounds = none ∧
      (useClusteringArgs [] (deriveBounds (some throwingMap)) none).bounds = none) :=
  ⟨rfl, unavailable_bounds_run_unconstrained [] none throwingMap rfl⟩

/-- C7: the `selectedMarker` state holds at most one record in every state
reachable from the initial `null` state by any event sequence, and
clicking marker `A` then marker `B` (distinct ids) leaves exactly the
`B` selection — the second click replaces the first instead of
accumulating or erroring. -/
theorem selection_at_most_one_and_replaces (events : List UIEvent)
    (sel : Option SelectedMarker) (A B : Visitor)
    (hAB : A.visitorId ≠ B.visitorId) :
    selectionCount (events.foldl selectionStep none) ≤ 1 ∧
    selectionStep (selectionStep sel (UIEvent.markerClick A)) (UIEvent.markerClick B) =
      some { id := B.visitorId, visitor := B } ∧
    selectionStep (selectionStep sel (UIEvent.markerClick A)) (UIEvent.markerClick B) ≠
      some { id := A.visitorId, visitor := A } := by
  refine ⟨selectionCount_le_one _, rfl, fun hid => ?_⟩
  exact hAB (congrArg SelectedMarker.id (Option.some.inj hid)).symm

theorem selection_at_most_one_and_replaces_witness :
    (usVisitor.visitorId ≠ frVisitor.visitorId) ∧
    (selectionCount
        ([UIEvent.markerClick usVisitor, UIEvent.mapBackgroundClick].foldl
          selectionStep none) ≤ 1 ∧
      selectionStep (selectionStep none (UIEvent.markerClick usVisitor))
          (UIEvent.markerClick frVisitor) =
        some { id := frVisitor.visitorId, visitor := frVisitor } ∧
      selectionStep (selectionStep none (UIEvent.markerClick usVisitor))
          (UIEvent.markerClick frVisitor) ≠
        some { id := usVisitor.visitorId, visitor := usVisitor }) :=
  ⟨by decide,
    selection_at_most_one_and_replaces
      [UIEvent.markerClick usVisitor, UIEvent.mapBackgroundClick]
      none usVisitor frVisitor (by decide)⟩

theorem matchesSearchQuery_empty (v : Visitor) : matchesSearchQuery v "" = true := rfl

theorem matchesCountryFilter_empty (v : Visitor) : matchesCountryFilter v "" = true := rfl

theorem matchesDeviceFilter_empty (v : Visitor) : matchesDeviceFilter v "" = true := rfl

theorem matchesCustomerFilter_empty (v : Visitor) : matchesCustomerFilter v "" = true := rfl

theorem matchesCustomerFilter_any (v : Visitor) : matchesCustomerFilter v "any" = true := rfl

theorem matchesCountryCodeFilter_empty (v : Visitor) :
    matchesCountryCodeFilter v "" = true := rfl

/-- C4: the filter predicate is monotone under relaxation — if a record
passes the criteria, it still passes after any single non-empty field is
cleared, because the predicate is a conjunction and each cleared sub-check
is identically true. -/
theorem visitorPasses_monotone_clear (v : Visitor) (q : String) (f : Filters)
    (q' : String) (f' : Filters)
    (hp : visitorPasses v q f = true)
    (hc : clearsOneField q f q' f') :
    visitorPasses v q' f' = true := by
  simp only [visitorPasses, Bool.and_eq_true] at hp ⊢
  obtain ⟨⟨⟨⟨h1, h2⟩, h3⟩, h4⟩, h5⟩ := hp
  rcases hc with ⟨_, hq, hf⟩ | ⟨_, hq, hf⟩ | ⟨_, hq, hf⟩ |
    ⟨_, _, hq, hf | hf⟩ | ⟨_, hq, hf⟩ <;> subst hq <;> subst hf
  · exact ⟨⟨⟨⟨matchesSearchQuery_empty v, h2⟩, h3⟩, h4⟩, h5⟩
  · exact ⟨⟨⟨⟨h1, matchesCountryFilter_empty v⟩, h3⟩, h4⟩, h5⟩
  · exact ⟨⟨⟨⟨h1, h2⟩, matchesDeviceFilter_empty v⟩, h4⟩, h5⟩
  · exact ⟨⟨⟨⟨h1, h2⟩, h3⟩, matchesCustomerFilter_empty v⟩, h5⟩
  · exact ⟨⟨⟨⟨h1, h2⟩, h3⟩, matchesCustomerFilter_any v⟩, h5⟩
  · exact ⟨⟨⟨⟨h1, h2⟩, h3⟩, h4⟩, matchesCountryCodeFilter_empty v⟩

theorem visitorPasses_monotone_clear_witness :
    (visitorPasses usVisitor "" customerOnlyFilters = true ∧
      clearsOneField "" customerOnlyFilters ""
        { country := "", device := "", customer := "", countryCode := "" }) ∧
    visitorPasses usVisitor ""
      { country := "", device := "", customer := "", countryCode := "" } = true :=
  ⟨⟨by decide,
    Or.inr (Or.inr (Or.inr (Or.inl ⟨by decide, by decide, rfl, Or.inl rfl⟩)))⟩,
    visitorPasses_monotone_clear usVisitor "" customerOnlyFilters ""
      { country := "", device := "", customer := "", countryCode := "" }
      (by decide)
      (Or.inr (Or.inr (Or.inr (Or.inl ⟨by decide, by decide, rfl, Or.inl rfl⟩))))⟩

/-- C5: filtering with the all-empty criteria (empty search text, empty
country, device and country-code filters, and customer filter equal to
`""` or `"any"`) returns the input list unchanged, order and membership
included — every sub-check is identically true, so `Array.filter` keeps
every record. -/
theorem filterVisitors_all_empty (visitors : List Visitor) (customerVal : String)
    (hc : customerVal = "" ∨ customerVal = "any") :
    filterVisitors visitors ""
      { country := "", device := "", customer := customerVal, countryCode := "" } =
      visitors := by
  apply List.filter_eq_self.mpr
  intro v _
  rcases hc with rfl | rfl <;> rfl

theorem filterVisitors_all_empty_witness :
    ("any" = "" ∨ "any" = "any") ∧
    filterVisitors [usVisitor, frVisitor, anonVisitor] ""
      { country := "", device := "", customer := "any", countryCode := "" } =
      [usVisitor, frVisitor, anonVisitor] :=
  ⟨Or.inr rfl, filterVisitors_all_empty [usVisitor, frVisitor, anonVisitor] "any" (Or.inr rfl)⟩

theorem mem_jsBooleanFilter (s : String) (values : List (Option String)) :
    s ∈ jsBooleanFilter values ↔ some s ∈ values ∧ s ≠ "" := by
  simp only [jsBooleanFilter, List.mem_filterMap]
  constructor
  · rintro ⟨o, ho, he⟩
    rcases o with _ | t
    · exact absurd he (by simp)
    · dsimp only at he
      by_cases ht : t = ""
      · rw [if_pos ht] at he
        exact absurd he (by simp)
      · rw [if_neg ht] at he
        obtain rfl : t = s := Option.some.inj he
        exact ⟨ho, ht⟩
  · rintro ⟨ho, hs⟩
    refine ⟨some s, ho, ?_⟩
    dsimp only
    rw [if_neg hs]

theorem mem_dedupKeepFirst (a : String) (seen l : List String) :
    a ∈ dedupKeepFirst seen l ↔ a ∈ l ∧ a ∉ seen := by
  induction l generalizing seen with
  | nil => simp [dedupKeepFirst]
  | cons v rest ih =>
    by_cases h : v ∈ seen
    · rw [dedupKeepFirst, if_pos h, ih]
      constructor
      · rintro ⟨h1, h2⟩
        exact ⟨List.mem_cons_of_mem v h1, h2⟩
      · rintro ⟨h1, h2⟩
        rcases List.mem_cons.mp h1 with rfl | h1
        · exact absurd h h2
        · exact ⟨h1, h2⟩
    · rw [dedupKeepFirst, if_neg h]
      constructor
      · intro hmem
        rcases List.mem_cons.mp hmem with rfl | hmem
        · exact ⟨List.mem_cons_self _ _, h⟩
        · obtain ⟨h1, h2⟩ := (ih (v :: seen)).mp hmem
          exact ⟨List.mem_cons_of_mem v h1, fun hs => h2 (List.mem_cons_of_mem v hs)⟩
      · rintro ⟨h1, h2⟩
        rcases List.mem_cons.mp h1 with rfl | h1
        · exact List.mem_cons_self _ _
        · by_cases hav : a = v
          · subst hav
            exact List.mem_cons_self _ _
          · refine List.mem_cons_of_mem v ((ih (v :: seen)).mpr ⟨h1, fun hs => ?_⟩)
            exact (List.mem_cons.mp hs).elim hav h2

theorem nodup_dedupKeepFirst (seen l : List String) : (dedupKeepFirst seen l).Nodup := by
  induction l generalizing seen with
  | nil => simp [dedupKeepFirst]
  | cons v rest ih =>
    by_cases h : v ∈ seen
    · rw [dedupKeepFirst, if_pos h]
      exact ih seen
    · rw [dedupKeepFirst, if_neg h]
      refine List.nodup_cons.mpr ⟨fun hmem => ?_, ih (v :: seen)⟩
      exact ((mem_dedupKeepFirst v (v :: seen) rest).mp hmem).2 (List.mem_cons_self v seen)

/-- C6: `getUniqueValues` returns a duplicate-free list of non-empty
values, sorted lexicographically ascending, and the result is invariant
under any permutation of the input record list. -/
theorem getUniqueValues_spec (visitors visitors' : List Visitor)
    (getValue : Visitor → Option String) (hperm : visitors.Perm visitors') :
    (getUniqueValues visitors getValue).Nodup ∧
    (∀ s ∈ getUniqueValues visitors getValue, s ≠ "") ∧
    (getUniqueValues visitors getValue).Sorted (fun a b => a ≤ b) ∧
    getUniqueValues visitors getValue = getUniqueValues visitors' getValue := by
  refine ⟨?_, ?_, ?_, ?_⟩
  · exact (List.perm_insertionSort _ _).nodup_iff.mpr
      (nodup_dedupKeepFirst [] (jsBooleanFilter (visitors.map getValue)))
  · intro s hs
    rw [getUniqueValues, List.mem_insertionSort, mem_dedupKeepFirst,
      mem_jsBooleanFilter] at hs
    exact hs.1.2
  · exact List.sorted_insertionSort _ _
  · have h1 : List.Perm (jsBooleanFilter (visitors.map getValue))
        (jsBooleanFilter (visitors'.map getValue)) := by
      simp only [jsBooleanFilter]
      exact (hperm.map getValue).filterMap _
    have hd : List.Perm (dedupKeepFirst [] (jsBooleanFilter (visitors.map getValue)))
        (dedupKeepFirst [] (jsBooleanFilter (visitors'.map getValue))) := by
      refine (List.perm_ext_iff_of_nodup (nodup_dedupKeepFirst _ _)
        (nodup_dedupKeepFirst _ _)).mpr (fun a => ?_)
      rw [mem_dedupKeepFirst, mem_dedupKeepFirst]
      simp [h1.mem_iff]
    refine List.eq_of_perm_of_sorted
      ((List.perm_insertionSort _ _).trans
        (hd.trans (List.perm_insertionSort _ _).symm))
      (List.sorted_insertionSort _ _) (List.sorted_insertionSort _ _)

theorem getUniqueValues_spec_witness :
    ([usVisitor, frVisitor, anonVisitor].Perm [frVisitor, anonVisitor, usVisitor]) ∧
    ((getUniqueValues [usVisitor, frVisitor, anonVisitor] Visitor.country).Nodup ∧
      (∀ s ∈ getUniqueValues [usVisitor, frVisitor, anonVisitor] Visitor.country,
        s ≠ "") ∧
      (getUniqueValues [usVisitor, frVisitor, anonVisitor] Visitor.country).Sorted
        (fun a b => a ≤ b) ∧
      getUniqueValues [usVisitor, frVisitor, anonVisitor] Visitor.country =
        getUniqueValues [frVisitor, anonVisitor, usVisitor] Visitor.country) :=
  ⟨by decide,
    getUniqueValues_spec [usVisitor, frVisitor, anonVisitor]
      [frVisitor, anonVisitor, usVisitor] Visitor.country (by decide)⟩

end GlobeViewer
